import Mathlib

/-!
Verification of the Trino MCP gateway core (statement client, retrying
transport, error classifier, RPC dispatcher) against its specification.

Strings from the Python source are modelled as `List Char`; the Python
substring test `pat in s` becomes `pat.toList <:+: s.toList` (list infix),
`s.lower()` becomes `List.map Char.toLower`, and f-string interpolation
becomes list append.  Fallible Python code is modelled with `Except`.
-/

namespace TrinoMCP

/-! ### Error taxonomy (src/app/errors.py) -/

/-- Numeric error codes from `class ErrorCode` in errors.py. -/
def ErrorCode.PARSE_ERROR : Int := -32700
def ErrorCode.INVALID_REQUEST : Int := -32600
def ErrorCode.METHOD_NOT_FOUND : Int := -32601
def ErrorCode.INVALID_PARAMS : Int := -32602
def ErrorCode.INTERNAL_ERROR : Int := -32603
def ErrorCode.TRINO_CONNECTION_ERROR : Int := -33000
def ErrorCode.TRINO_QUERY_ERROR : Int := -33001
def ErrorCode.TRINO_AUTH_ERROR : Int := -33002
def ErrorCode.TRINO_RESOURCE_ERROR : Int := -33003
def ErrorCode.TRINO_TIMEOUT_ERROR : Int := -33004
def ErrorCode.TRINO_SYNTAX_ERROR : Int := -33005
def ErrorCode.TRINO_STATE_ERROR : Int := -33006

/-- Python `class MCPError`: code, human message, optional structured payload.
The only `data` ever attached by the classifier is
`{"original_error": error_msg}`, modelled as the message itself. -/
structure MCPError where
  code : Int
  message : List Char
  data : Option (List Char)
deriving DecidableEq

/-- Python `class ParseError(MCPError)` -/
def ParseError (message : List Char) : MCPError :=
  { code := ErrorCode.PARSE_ERROR, message := message, data := none }

/-- Python `class InvalidRequest(MCPError)` -/
def InvalidRequest (message : List Char) : MCPError :=
  { code := ErrorCode.INVALID_REQUEST, message := message, data := none }

/-- Python `class MethodNotFound(MCPError)` -/
def MethodNotFound (message : List Char) : MCPError :=
  { code := ErrorCode.METHOD_NOT_FOUND, message := message, data := none }

/-- Python `class InvalidParams(MCPError)` -/
def InvalidParams (message : List Char) : MCPError :=
  { code := ErrorCode.INVALID_PARAMS, message := message, data := none }

/-- Python `class InternalError(MCPError)` -/
def InternalError (message : List Char) : MCPError :=
  { code := ErrorCode.INTERNAL_ERROR, message := message, data := none }

/-- Python `class TrinoConnectionError(MCPError)` -/
def TrinoConnectionError (message : List Char) (data : Option (List Char)) : MCPError :=
  { code := ErrorCode.TRINO_CONNECTION_ERROR, message := message, data := data }

/-- Python `class TrinoQueryError(MCPError)` -/
def TrinoQueryError (message : List Char) (data : Option (List Char)) : MCPError :=
  { code := ErrorCode.TRINO_QUERY_ERROR, message := message, data := data }

/-- Python `class TrinoAuthError(MCPError)` -/
def TrinoAuthError (message : List Char) (data : Option (List Char)) : MCPError :=
  { code := ErrorCode.TRINO_AUTH_ERROR, message := message, data := data }

/-- Python `class TrinoResourceError(MCPError)` -/
def TrinoResourceError (message : List Char) (data : Option (List Char)) : MCPError :=
  { code := ErrorCode.TRINO_RESOURCE_ERROR, message := message, data := data }

/-- Python `class TrinoTimeoutError(MCPError)` -/
def TrinoTimeoutError (message : List Char) (data : Option (List Char)) : MCPError :=
  { code := ErrorCode.TRINO_TIMEOUT_ERROR, message := message, data := data }

/-- Python `class TrinoSyntaxError(MCPError)` -/
def TrinoSyntaxError (message : List Char) (data : Option (List Char)) : MCPError :=
  { code := ErrorCode.TRINO_SYNTAX_ERROR, message := message, data := data }

/-- Python `def handle_trino_error(error) -> MCPError` from errors.py.
The classifier only reads `str(error)`, so the model takes the message.
`str(e)` of an `MCPError` is its `message` field (via `super().__init__`).
Each Python `"pat" in error_msg` test is an infix test; the priority
order of the `if` chain is copied from the source, including the Python
precedence `A or (B and C)` of the syntax-error test. -/
def handle_trino_error (error_msg : List Char) : MCPError :=
  if "Connection refused".toList <:+: error_msg ∨
     "Failed to establish a new connection".toList <:+: error_msg then
    TrinoConnectionError
      ("Failed to connect to Trino server. Please check that the server is running and accessible.".toList)
      (some error_msg)
  else if "Invalid credentials".toList <:+: error_msg ∨
          "Authentication failed".toList <:+: error_msg then
    TrinoAuthError ("Authentication failed. Please check your credentials.".toList) (some error_msg)
  else if "does not exist".toList <:+: error_msg then
    (if "catalog".toList <:+: error_msg then
      TrinoResourceError ("Catalog not found: ".toList ++ error_msg) (some error_msg)
    else if "schema".toList <:+: error_msg then
      TrinoResourceError ("Schema not found: ".toList ++ error_msg) (some error_msg)
    else if "table".toList <:+: error_msg then
      TrinoResourceError ("Table not found: ".toList ++ error_msg) (some error_msg)
    else
      TrinoResourceError ("Resource not found: ".toList ++ error_msg) (some error_msg))
  else if "syntax error".toList <:+: List.map Char.toLower error_msg ∨
          ("line".toList <:+: error_msg ∧ "position".toList <:+: error_msg) then
    TrinoSyntaxError ("SQL syntax error: ".toList ++ error_msg) (some error_msg)
  else if "exceeded the query timeout".toList <:+: error_msg ∨
          "execution time exceeded".toList <:+: error_msg then
    TrinoTimeoutError ("Query execution timed out: ".toList ++ error_msg) (some error_msg)
  else
    TrinoQueryError ("Error executing Trino query: ".toList ++ error_msg) (some error_msg)

set_option maxRecDepth 10000

/-- Pattern `p` cannot occur in `P ++ m` by lying inside `P` nor by
spanning the boundary; with `p` and `P` concrete this is decidable. -/
def cleanFor (p P : List Char) : Prop :=
  ¬ p <:+: P ∧ ∀ k, k < p.length → 0 < k → ¬ List.take k p <:+ P

instance (p P : List Char) : Decidable (cleanFor p P) := by
  unfold cleanFor; infer_instance

/-! ### `TrinoClient._request_with_retry` (src/app/trino_client.py, 193-224)

One HTTP attempt either yields a response (with a status code, and the
text the `requests` library would put on the `HTTPError` that
`raise_for_status` raises for a 4xx/5xx status), or raises a
transport-level exception (`requests.RequestException` / `ConnectionError`)
carrying a message.  The transport is a function from the 0-based attempt
index to that outcome.  The model returns, besides the result, the number
of HTTP attempts performed and the list of back-off waits slept, in
order. -/

structure HttpResponse where
  status : Nat
  errText : List Char
deriving DecidableEq

inductive AttemptOutcome where
  | resp (r : HttpResponse)
  | exn (msg : List Char)
deriving DecidableEq

inductive RetryResult where
  | ok (r : HttpResponse)
  | err (e : MCPError)
deriving DecidableEq

/-- The retry loop body.  `remaining` is `retry_attempts - attempt` (the
loop runs while `remaining > 0`); `last` is `last_exception`.  A 401/403
raises `TrinoAuthError`, which is not a `requests.RequestException` and so
escapes the `except` clause immediately; any other 4xx/5xx status makes
`raise_for_status` raise an `HTTPError`, which — like a transport
exception — is caught and retried; on exhaustion the loop falls through to
`raise handle_trino_error(last_exception or RuntimeError(...))`.  The wait
before the next attempt is `retry_delay * 2 ** attempt`, executed only
when `attempt < retry_attempts - 1`, i.e. when `remaining > 1`. -/
def retryGo (retry_delay : ℚ) (transport : Nat → AttemptOutcome) :
    Nat → Nat → Option (List Char) → RetryResult × Nat × List ℚ
  | 0, attempt, last =>
    (RetryResult.err (handle_trino_error
        (last.getD ("Request failed after multiple retries".toList))), attempt, [])
  | remaining + 1, attempt, _last =>
    match transport attempt with
    | AttemptOutcome.resp r =>
      if r.status = 401 then
        (RetryResult.err (TrinoAuthError
            ("Authentication failed. Check your credentials.".toList) none), attempt + 1, [])
      else if r.status = 403 then
        (RetryResult.err (TrinoAuthError
            ("Permission denied. The user does not have sufficient privileges.".toList) none),
         attempt + 1, [])
      else if 400 ≤ r.status ∧ r.status < 600 then
        let rest := retryGo retry_delay transport remaining (attempt + 1) (some r.errText)
        if remaining = 0 then rest
        else (rest.1, rest.2.1, retry_delay * 2 ^ attempt :: rest.2.2)
      else
        (RetryResult.ok r, attempt + 1, [])
    | AttemptOutcome.exn m =>
      let rest := retryGo retry_delay transport remaining (attempt + 1) (some m)
      if remaining = 0 then rest
      else (rest.1, rest.2.1, retry_delay * 2 ^ attempt :: rest.2.2)

/-- Python `def _request_with_retry(self, method, url, **kwargs)`: run the loop
`for attempt in range(self.retry_attempts)` from attempt 0 with no last
exception. -/
def request_with_retry (retry_delay : ℚ) (retry_attempts : Nat)
    (transport : Nat → AttemptOutcome) : RetryResult × Nat × List ℚ :=
  retryGo retry_delay transport retry_attempts 0 none

/-- The message with which an attempt outcome is caught by the `except`
clause of the retry loop, when it is caught at all. -/
def caughtMsg : AttemptOutcome → Option (List Char)
  | AttemptOutcome.exn m => some m
  | AttemptOutcome.resp r =>
    if 400 ≤ r.status ∧ r.status < 600 ∧ r.status ≠ 401 ∧ r.status ≠ 403 then
      some r.errText
    else none

/-! ### `TrinoClient.execute_query` (src/app/trino_client.py, 226-307)

An engine response carries optional `columns` (each column object is
represented by its `name`, the only field the client reads), optional
`data` rows (row contents are opaque to the client, type parameter `ρ`),
an optional embedded `error` object and an optional continuation
`nextUri`.  `pages` maps a continuation URI to the engine response served
there; the HTTP fetches themselves are assumed to succeed (transport
failures are the business of `request_with_retry`).  `fuel` bounds the
number of continuation fetches; every claim instantiates it large
enough. -/

structure EngineError where
  message : Option (List Char)
  errorType : Option (List Char)
  errorName : Option (List Char)
deriving DecidableEq

structure QueryResponse (ρ : Type) where
  columns : Option (List (List Char))
  data : Option (List ρ)
  error : Option EngineError
  nextUri : Option (List Char)

structure QueryResult (ρ : Type) where
  columns : List (List Char)
  rows : List ρ
deriving DecidableEq

/-- The error dispatch for an `error` object in the first response
(trino_client.py 253-270).  Every branch but ACCESS_DENIED raises
`handle_trino_error(Exception(...))`; ACCESS_DENIED raises `TrinoAuthError`
directly. -/
def engineErrorRaise (err : EngineError) : MCPError :=
  let error_message := err.message.getD ("Unknown Trino error".toList)
  let error_type := err.errorType.getD []
  let error_name := err.errorName.getD []
  if "SYNTAX_ERROR".toList <:+: error_type then
    handle_trino_error ("Syntax error: ".toList ++ error_message)
  else if "RESOURCE_ERROR".toList <:+: error_type then
    handle_trino_error ("Resource error: ".toList ++ error_message)
  else if "INSUFFICIENT_RESOURCES".toList <:+: error_type then
    handle_trino_error ("Insufficient resources: ".toList ++ error_message)
  else if "PERMISSION_DENIED".toList <:+: error_type then
    handle_trino_error ("Permission denied: ".toList ++ error_message)
  else if "ACCESS_DENIED".toList <:+: error_type then
    TrinoAuthError ("Access denied: ".toList ++ error_message) none
  else
    handle_trino_error (error_type ++ " ".toList ++ error_name ++ ": ".toList ++ error_message)

/-- The `while "nextUri" in query_results and len(rows) < max_rows` loop of
`execute_query`.  Inside the loop: fetch the continuation, adopt its
columns when none were seen yet, extend the rows and truncate-and-break
the moment the cap is reached or passed, then check for an embedded error
object, then stop if the continuation link disappeared. -/
def execLoop (pages : List Char → QueryResponse ρ) (max_rows : Nat) :
    Nat → QueryResponse ρ → List (List Char) → List ρ →
    Except MCPError (QueryResult ρ)
  | 0, _, cols, rows => Except.ok ⟨cols, rows⟩
  | fuel + 1, cur, cols, rows =>
    match cur.nextUri with
    | none => Except.ok ⟨cols, rows⟩
    | some uri =>
      if rows.length < max_rows then
        let next := pages uri
        let cols1 := match next.columns with
          | some cs => if cols = [] then cs else cols
          | none => cols
        match next.data with
        | some d =>
          if max_rows ≤ (rows ++ d).length then
            Except.ok ⟨cols1, (rows ++ d).take max_rows⟩
          else
            match next.error with
            | some err =>
              Except.error (handle_trino_error
                (err.errorType.getD [] ++ ": ".toList ++
                 err.message.getD ("Unknown Trino error".toList)))
            | none =>
              match next.nextUri with
              | none => Except.ok ⟨cols1, rows ++ d⟩
              | some _ => execLoop pages max_rows fuel next cols1 (rows ++ d)
        | none =>
          match next.error with
          | some err =>
            Except.error (handle_trino_error
              (err.errorType.getD [] ++ ": ".toList ++
               err.message.getD ("Unknown Trino error".toList)))
          | none =>
            match next.nextUri with
            | none => Except.ok ⟨cols1, rows⟩
            | some _ => execLoop pages max_rows fuel next cols1 rows
      else Except.ok ⟨cols, rows⟩

/-- Python `def execute_query(self, sql, max_rows=100)`: collect columns and rows
from the first response, dispatch an embedded error object if present,
otherwise follow continuation links; the surrounding
`except Exception as e: raise handle_trino_error(e)` re-classifies every
raised error by its message. -/
def execute_query (first : QueryResponse ρ) (pages : List Char → QueryResponse ρ)
    (max_rows : Nat) (fuel : Nat) : Except MCPError (QueryResult ρ) :=
  let cols := first.columns.getD []
  let rows := first.data.getD []
  let inner : Except MCPError (QueryResult ρ) :=
    match first.error with
    | some err => Except.error (engineErrorRaise err)
    | none => execLoop pages max_rows fuel first cols rows
  match inner with
  | Except.ok r => Except.ok r
  | Except.error e => Except.error (handle_trino_error e.message)


/-! ### `TrinoClient.get_query_status` (trino_client.py 353-379) and
`TrinoClient.get_query_results` (381-474)

The `/v1/query/{id}` info document is an arbitrary JSON object, modelled
as an association list of string keys to JSON values; `dict.get` is a
lookup with a default. -/

inductive Json where
  | null : Json
  | bool (b : Bool) : Json
  | num (n : Int) : Json
  | str (s : List Char) : Json
  | arr (xs : List Json) : Json
  | obj (fields : List (List Char × Json)) : Json

def jlookup (fields : List (List Char × Json)) (k : List Char) : Option Json :=
  List.lookup k fields

def Json.asStr : Json → Option (List Char)
  | Json.str s => some s
  | _ => none

/-- Python `==` between a JSON value and a string literal. -/
def Json.isStrEq (j : Json) (s : List Char) : Bool :=
  match j with
  | Json.str t => t = s
  | _ => false

/-- Python truthiness of a JSON value. -/
def Json.truthy : Json → Bool
  | Json.null => false
  | Json.bool b => b
  | Json.num n => n ≠ 0
  | Json.str s => s ≠ []
  | Json.arr xs => !xs.isEmpty
  | Json.obj fs => !fs.isEmpty

structure QueryStatus where
  queryId : List Char
  state : Json
  error : Json
  stats : Json

/-- Python `def get_query_status(self, query_id)`: normalize the raw info object
into `{queryId, state, error, stats}` with `dict.get` defaults
`"UNKNOWN"`, `None` and `{}`; total in the shape of the object. -/
def get_query_status (query_id : List Char)
    (query_info : List (List Char × Json)) : QueryStatus :=
  { queryId := query_id
    state := (jlookup query_info ("state".toList)).getD (Json.str ("UNKNOWN".toList))
    error := (jlookup query_info ("error".toList)).getD Json.null
    stats := (jlookup query_info ("statistics".toList)).getD (Json.obj []) }

/-- The five lifecycle states named by the specification (§3 QueryStatus). -/
def specLifecycleStates : List (List Char) :=
  ["QUEUED".toList, "RUNNING".toList, "FINISHED".toList, "FAILED".toList, "CANCELED".toList]

structure QueryResultPage (ρ : Type) where
  columns : List (List Char)
  rows : List ρ
  nextToken : Option (List Char)
deriving DecidableEq

/-- The `while next_token and len(rows) < max_rows` loop of
`get_query_results`: fetch the token, extend the rows, truncate-and-break
when the row count strictly exceeds the cap (leaving the just-consumed
token as the returned `nextToken`), else advance the token.  A `None`
or empty-string token (Python falsiness) ends the loop. -/
def gqrLoop (pages : List Char → QueryResponse ρ) (max_rows : Nat) :
    Nat → Option (List Char) → List ρ → List ρ × Option (List Char)
  | 0, tok, rows => (rows, tok)
  | fuel + 1, tok, rows =>
    match tok with
    | none => (rows, none)
    | some t =>
      if t = [] then (rows, some t)
      else if rows.length < max_rows then
        let res := pages t
        match res.data with
        | some d =>
          if max_rows < (rows ++ d).length then ((rows ++ d).take max_rows, some t)
          else gqrLoop pages max_rows fuel res.nextUri (rows ++ d)
        | none => gqrLoop pages max_rows fuel res.nextUri rows
      else (rows, some t)

/-- Python `def get_query_results(self, query_id, max_rows=100)`: check the query
state via `get_query_status`; for RUNNING take the info document's
`nextUri`, for FINISHED prefer the output stage self-link plus
`"/results"`, falling back to `nextUri`, falling back to a constructed
default URL; fetch the first page, and only if it carries a further
`nextUri` and the cap is not yet reached, follow continuations.  The
FAILED branch embeds the engine error message (`status["error"]` is
truthiness-tested, and its `message` read with a default); the
surrounding `except` re-classifies every raised error by its message. -/
def get_query_results (query_id : List Char) (base_url : List Char)
    (query_info : List (List Char × Json))
    (pages : List Char → QueryResponse ρ)
    (max_rows : Nat) (fuel : Nat) : Except MCPError (QueryResultPage ρ) :=
  let status := get_query_status query_id query_info
  let inner : Except MCPError (QueryResultPage ρ) :=
    if !(Json.isStrEq status.state ("FINISHED".toList) ||
         Json.isStrEq status.state ("RUNNING".toList)) then
      if Json.isStrEq status.state ("FAILED".toList) && Json.truthy status.error then
        Except.error (handle_trino_error ("Query failed: ".toList ++
          (match status.error with
           | Json.obj fs => ((jlookup fs ("message".toList)).bind Json.asStr).getD
               ("Unknown error".toList)
           | _ => "Unknown error".toList)))
      else if Json.isStrEq status.state ("CANCELED".toList) then
        Except.error (TrinoQueryError ("Query was canceled".toList) none)
      else
        Except.error (TrinoQueryError ("Query is not ready yet. Current state: ".toList ++
          (status.state.asStr.getD [])) none)
    else
      let next_uri : Option (List Char) :=
        if Json.isStrEq status.state ("RUNNING".toList) then
          (jlookup query_info ("nextUri".toList)).bind Json.asStr
        else
          match (jlookup query_info ("outputStage".toList)).getD (Json.obj []) with
          | Json.obj ofs =>
            match (jlookup ofs ("self".toList)).bind Json.asStr with
            | some s => some (s ++ "/results".toList)
            | none => (jlookup query_info ("nextUri".toList)).bind Json.asStr
          | _ => (jlookup query_info ("nextUri".toList)).bind Json.asStr
      let uri : List Char :=
        match next_uri with
        | some s => if s = [] then
            base_url ++ "/v1/query/".toList ++ query_id ++ "/results".toList
          else s
        | none => base_url ++ "/v1/query/".toList ++ query_id ++ "/results".toList
      let results := pages uri
      let columns := results.columns.getD []
      let rows := results.data.getD []
      match results.nextUri with
      | some tok =>
        if rows.length < max_rows then
          let out := gqrLoop pages max_rows fuel (some tok) rows
          Except.ok ⟨columns, out.1, out.2⟩
        else Except.ok ⟨columns, rows, none⟩
      | none => Except.ok ⟨columns, rows, none⟩
  match inner with
  | Except.ok r => Except.ok r
  | Except.error e => Except.error (handle_trino_error e.message)


/-! ### Session headers and `list_schemas` / `list_tables`
(trino_client.py 115-166)

`self.http_headers` is a mutable dict, modelled as a function from header
names to optional values; `execute_query` reads the headers current at
call time, so the query runner is passed the scoped header state. -/

def Headers := List Char → Option (List Char)

def hset (h : Headers) (k v : List Char) : Headers :=
  fun q => if q = k then some v else h q

def hpop (h : Headers) (k : List Char) : Headers :=
  fun q => if q = k then none else h q

/-- The `finally` block: `if original: headers[k] = original else:
headers.pop(k, None)` — Python truthiness, so a previously-present empty
string is popped, not restored. -/
def restoreHeader (st : Headers) (k : List Char) (orig : Option (List Char)) : Headers :=
  match orig with
  | some s => if s = [] then hpop st k else hset st k s
  | none => hpop st k

/-- Python `[row[0] for row in result["rows"]]`; an empty row raises
`IndexError("list index out of range")`, caught by the outer `except`. -/
def firstCells {γ : Type} : List (List γ) → Except (List Char) (List γ)
  | [] => Except.ok []
  | [] :: _ => Except.error ("list index out of range".toList)
  | (x :: _) :: rest =>
    match firstCells rest with
    | Except.ok vs => Except.ok (x :: vs)
    | Except.error e => Except.error e

/-- Python `def list_schemas(self, catalog)`: remember the current
`X-Trino-Catalog` header, set it to `catalog`, run `SHOW SCHEMAS`
(`exec`, reading the scoped headers), restore the header in `finally`,
and re-classify any raised error.  The guard
`if not result or "rows" not in result` never fires in the model because
`execute_query` always returns both keys. -/
def list_schemas {γ : Type} (st : Headers) (catalog : List Char)
    (exec : Headers → Except MCPError (QueryResult (List γ))) :
    Except MCPError (List γ) × Headers :=
  let original_catalog := st ("X-Trino-Catalog".toList)
  let st1 := hset st ("X-Trino-Catalog".toList) catalog
  let inner : Except (List Char) (List γ) :=
    match exec st1 with
    | Except.ok r => firstCells r.rows
    | Except.error e => Except.error e.message
  let st2 := restoreHeader st1 ("X-Trino-Catalog".toList) original_catalog
  (match inner with
   | Except.ok v => Except.ok v
   | Except.error m => Except.error (handle_trino_error m), st2)

/-- Python `def list_tables(self, catalog, schema)`: same discipline for both the
catalog and schema headers. -/
def list_tables {γ : Type} (st : Headers) (catalog schema : List Char)
    (exec : Headers → Except MCPError (QueryResult (List γ))) :
    Except MCPError (List γ) × Headers :=
  let original_catalog := st ("X-Trino-Catalog".toList)
  let original_schema := st ("X-Trino-Schema".toList)
  let st1 := hset (hset st ("X-Trino-Catalog".toList) catalog)
      ("X-Trino-Schema".toList) schema
  let inner : Except (List Char) (List γ) :=
    match exec st1 with
    | Except.ok r => firstCells r.rows
    | Except.error e => Except.error e.message
  let st2 := restoreHeader st1 ("X-Trino-Catalog".toList) original_catalog
  let st3 := restoreHeader st2 ("X-Trino-Schema".toList) original_schema
  (match inner with
   | Except.ok v => Except.ok v
   | Except.error m => Except.error (handle_trino_error m), st3)

/-! ### `run_query_sync` (src/app/rpc.py 25-50)

The handler validates its parameter mapping before touching the client;
`exec` stands for `client.execute_query`, and the second component of the
result records whether it was invoked at all.  JSON numbers are modelled
as integers (`maxRows` must be an `int` to validate; the Python quirk
that `bool` is an `int` subtype is not modelled, no claim depends on
it). -/

def run_query_sync {ρ : Type} (params : Json)
    (exec : List Char → Int → Except MCPError (QueryResult ρ)) :
    Except MCPError (QueryResult ρ) × Bool :=
  match params with
  | Json.obj fields =>
    match jlookup fields ("sql".toList) with
    | none => (Except.error (InvalidParams
        ("Missing required parameter: \x27sql\x27".toList)), false)
    | some v =>
      match v with
      | Json.str sql =>
        if sql.all Char.isWhitespace then
          (Except.error (InvalidParams
            ("\x27sql\x27 parameter must be a non-empty string".toList)), false)
        else
          match (jlookup fields ("maxRows".toList)).getD (Json.num 100) with
          | Json.num max_rows =>
            if max_rows ≤ 0 then
              (Except.error (InvalidParams
                ("\x27maxRows\x27 must be a positive integer".toList)), false)
            else
              match exec sql max_rows with
              | Except.ok r => (Except.ok r, true)
              | Except.error e => (Except.error (handle_trino_error e.message), true)
          | _ => (Except.error (InvalidParams
              ("\x27maxRows\x27 must be a positive integer".toList)), false)
      | _ => (Except.error (InvalidParams
          ("\x27sql\x27 parameter must be a non-empty string".toList)), false)
  | _ => (Except.error (InvalidParams ("Parameters must be a dictionary".toList)), false)

/-! ### The `/mcp` endpoint (src/app/main.py 157-247)

The shared `default_client` singleton is modelled by its mutable fields;
`dispatch_rpc` and the JSON/pydantic stages are oracles, because their
outcome (not their implementation) is what the endpoint branches on. -/

structure ClientState where
  host : List Char
  port : Nat
  user : List Char
  catalog : Option (List Char)
  schema : Option (List Char)
  http_headers : Headers

inductive RpcId where
  | str (s : List Char)
  | num (n : Int)
  | null
deriving DecidableEq

structure RPCEnvelope where
  jsonrpc : List Char
  id : RpcId
  method : List Char
  params : Option (List (List Char × Json))

/-- Outcome of `await req.json()` plus pydantic validation: a JSON parse
error, an envelope-schema violation (with whatever `payload.get("id")`
yields), or a well-formed envelope. -/
inductive BodyOutcome where
  | parseError (msg : List Char)
  | invalidEnvelope (msg : List Char) (payloadId : Option RpcId)
  | envelope (env : RPCEnvelope)

/-- Outcome of `await dispatch_rpc(...)`: a result value, an `MCPError`,
a `KeyError`, or any other exception. -/
inductive DispatchOutcome where
  | ok (result : Json)
  | raised (e : MCPError)
  | keyError (msg : List Char)
  | exn (msg : List Char)

inductive ResponseBody where
  | result (r : Json)
  | error (e : MCPError)

structure RpcResponse where
  status : Nat
  id : RpcId
  body : ResponseBody

/-- Python `trino_user = username or "anonymous"` (Python falsiness: an empty
username also falls back). -/
def effectiveUser (username : Option (List Char)) : List Char :=
  match username with
  | some u => if u = [] then "anonymous".toList else u
  | none => "anonymous".toList

/-- Lines 220-247: assemble the JSON-RPC response from the dispatch
outcome — result, `MCPError`, `KeyError` (method not found) or any other
exception (internal error) — always echoing the envelope id. -/
def dispatchResponse (env : RPCEnvelope) (out : DispatchOutcome × ClientState) :
    RpcResponse × ClientState :=
  match out.1 with
  | DispatchOutcome.ok r =>
    ({ status := 200, id := env.id, body := ResponseBody.result r }, out.2)
  | DispatchOutcome.raised e =>
    ({ status := 200, id := env.id, body := ResponseBody.error e }, out.2)
  | DispatchOutcome.keyError _ =>
    ({ status := 200, id := env.id,
       body := ResponseBody.error (MethodNotFound
         ("Method \x27".toList ++ env.method ++ "\x27 not found".toList)) }, out.2)
  | DispatchOutcome.exn m =>
    ({ status := 200, id := env.id,
       body := ResponseBody.error (InternalError
         ("Internal server error: ".toList ++ m)) }, out.2)

/-- Python `async def mcp_endpoint(req, username)`: the auth gate answers 401
with `id: null` before the body is read; then parse errors and envelope
violations answer 400; a version mismatch answers 400 echoing the
envelope id; otherwise line 218 `trino_client.get_client().user =
trino_user` mutates the shared client (and does not touch the
`X-Trino-User` header), the call is dispatched, and every dispatch
outcome is answered echoing the envelope id. -/
def mcp_endpoint (is_auth_enabled : Bool) (username : Option (List Char))
    (body : BodyOutcome)
    (dispatch : List Char → Json → ClientState → DispatchOutcome × ClientState)
    (st : ClientState) : RpcResponse × ClientState :=
  if is_auth_enabled ∧ username = none then
    ({ status := 401, id := RpcId.null,
       body := ResponseBody.error
         { code := ErrorCode.TRINO_AUTH_ERROR,
           message := "Authentication required".toList, data := none } }, st)
  else
    let trino_user : List Char := effectiveUser username
    match body with
    | BodyOutcome.parseError m =>
      ({ status := 400, id := RpcId.null,
         body := ResponseBody.error (ParseError ("Invalid JSON: ".toList ++ m)) }, st)
    | BodyOutcome.invalidEnvelope m pid =>
      ({ status := 400, id := pid.getD RpcId.null,
         body := ResponseBody.error
           (InvalidRequest ("Invalid RPC request format: ".toList ++ m)) }, st)
    | BodyOutcome.envelope env =>
      if env.jsonrpc ≠ "2.0".toList then
        ({ status := 400, id := env.id,
           body := ResponseBody.error
             (InvalidRequest ("Unsupported JSON-RPC version: ".toList ++ env.jsonrpc)) }, st)
      else
        dispatchResponse env
          (dispatch env.method (Json.obj (env.params.getD [])) { st with user := trino_user })

/-! ### Theorems -/

/-- A prefix of `a ++ b` is a prefix of `a`, or extends all of `a` into `b`. -/
lemma prefix_append_split {α : Type} {p a b : List α} (h : p <+: a ++ b) :
    p <+: a ∨ (a <+: p ∧ List.drop a.length p <+: b) := by
  rcases Nat.le_total p.length a.length with hle | hle
  · left
    exact (List.isPrefix_append_of_length hle).mp h
  · right
    have ha : a <+: p :=
      List.prefix_of_prefix_length_le (List.prefix_append a b) h hle
    refine ⟨ha, ?_⟩
    obtain ⟨t, ht⟩ := ha
    obtain ⟨r, hr⟩ := h
    have hdrop : List.drop a.length p = t := by
      rw [← ht]; simp
    rw [hdrop]
    have : a ++ (t ++ r) = a ++ b := by
      rw [← List.append_assoc, ht, hr]
    have hb : t ++ r = b := List.append_cancel_left this
    exact ⟨r, hb⟩

/-- Decomposition of an infix occurrence in an append: the pattern lies in
the left part, in the right part, or spans the boundary (a nonempty proper
prefix of it is a suffix of the left part, the rest a prefix of the right). -/
lemma infix_append_split {α : Type} {p : List α} :
    ∀ {a b : List α}, p <:+: a ++ b →
      p <:+: a ∨ p <:+: b ∨
        ∃ k, 0 < k ∧ k < p.length ∧ List.take k p <:+ a ∧ List.drop k p <+: b := by
  intro a
  induction a with
  | nil => intro b h; exact Or.inr (Or.inl h)
  | cons x a ih =>
    intro b h
    rcases List.infix_cons_iff.mp h with hp | hi
    · rcases prefix_append_split (a := x :: a) hp with hp1 | ⟨hp2, hp3⟩
      · exact Or.inl ( List.IsPrefix.isInfix hp1)
      · rcases Nat.lt_or_ge (x :: a).length p.length with hlt | hge
        · refine Or.inr (Or.inr ⟨(x :: a).length, by simp, hlt, ?_, hp3⟩)
          have : List.take (x :: a).length p = x :: a := by
            obtain ⟨t, ht⟩ := hp2
            rw [← ht]; simp
          rw [this]
        · left
          have := ( List.IsPrefix.eq_of_length_le hp2 hge)
          rw [← this]
    · rcases ih hi with h1 | h2 | ⟨k, hk0, hkl, hs, hpre⟩
      · exact Or.inl ( List.infix_cons h1)
      · exact Or.inr (Or.inl h2)
      · exact Or.inr (Or.inr ⟨k, hk0, hkl,
          List.IsSuffix.trans hs (List.suffix_cons x a), hpre⟩)

lemma not_infix_append {p P m : List Char} (hc : cleanFor p P)
    (hm : ¬ p <:+: m) : ¬ p <:+: P ++ m := by
  intro h
  rcases infix_append_split h with h1 | h1 | ⟨k, hk0, hkl, hs, _⟩
  · exact hc.1 h1
  · exact hm h1
  · exact hc.2 k hkl hk0 hs

lemma infix_append_right {p P m : List Char} (h : p <:+: m) : p <:+: P ++ m := by
  obtain ⟨s, t, hst⟩ := h
  exact ⟨P ++ s, t, by rw [← hst]; simp⟩

lemma infix_append_left {p P m : List Char} (h : p <:+: P) : p <:+: P ++ m := by
  obtain ⟨s, t, hst⟩ := h
  exact ⟨s, t ++ m, by rw [← hst]; simp⟩

/-! ### Evaluation of `handle_trino_error`, one lemma per branch -/

lemma htE_conn {msg : List Char}
    (h : "Connection refused".toList <:+: msg ∨
         "Failed to establish a new connection".toList <:+: msg) :
    handle_trino_error msg =
      TrinoConnectionError
        ("Failed to connect to Trino server. Please check that the server is running and accessible.".toList)
        (some msg) := by
  unfold handle_trino_error
  rw [if_pos h]

lemma htE_auth {msg : List Char}
    (hn1 : ¬("Connection refused".toList <:+: msg ∨
             "Failed to establish a new connection".toList <:+: msg))
    (h : "Invalid credentials".toList <:+: msg ∨
         "Authentication failed".toList <:+: msg) :
    handle_trino_error msg =
      TrinoAuthError ("Authentication failed. Please check your credentials.".toList) (some msg) := by
  unfold handle_trino_error
  rw [if_neg hn1, if_pos h]

lemma htE_resource {msg : List Char}
    (hn1 : ¬("Connection refused".toList <:+: msg ∨
             "Failed to establish a new connection".toList <:+: msg))
    (hn2 : ¬("Invalid credentials".toList <:+: msg ∨
             "Authentication failed".toList <:+: msg))
    (h : "does not exist".toList <:+: msg) :
    ∃ P, P ∈ ["Catalog not found: ".toList, "Schema not found: ".toList,
              "Table not found: ".toList, "Resource not found: ".toList] ∧
      handle_trino_error msg = TrinoResourceError (P ++ msg) (some msg) := by
  unfold handle_trino_error
  rw [if_neg hn1, if_neg hn2, if_pos h]
  by_cases h1 : "catalog".toList <:+: msg
  · exact ⟨"Catalog not found: ".toList, by simp, by rw [if_pos h1]⟩
  · rw [if_neg h1]
    by_cases h2 : "schema".toList <:+: msg
    · exact ⟨"Schema not found: ".toList, by simp, by rw [if_pos h2]⟩
    · rw [if_neg h2]
      by_cases h3 : "table".toList <:+: msg
      · exact ⟨"Table not found: ".toList, by simp, by rw [if_pos h3]⟩
      · exact ⟨"Resource not found: ".toList, by simp, by rw [if_neg h3]⟩

lemma htE_syntaxBranch {msg : List Char}
    (hn1 : ¬("Connection refused".toList <:+: msg ∨
             "Failed to establish a new connection".toList <:+: msg))
    (hn2 : ¬("Invalid credentials".toList <:+: msg ∨
             "Authentication failed".toList <:+: msg))
    (hn3 : ¬ "does not exist".toList <:+: msg)
    (h : "syntax error".toList <:+: List.map Char.toLower msg ∨
         ("line".toList <:+: msg ∧ "position".toList <:+: msg)) :
    handle_trino_error msg =
      TrinoSyntaxError ("SQL syntax error: ".toList ++ msg) (some msg) := by
  unfold handle_trino_error
  rw [if_neg hn1, if_neg hn2, if_neg hn3, if_pos h]

lemma htE_timeout {msg : List Char}
    (hn1 : ¬("Connection refused".toList <:+: msg ∨
             "Failed to establish a new connection".toList <:+: msg))
    (hn2 : ¬("Invalid credentials".toList <:+: msg ∨
             "Authentication failed".toList <:+: msg))
    (hn3 : ¬ "does not exist".toList <:+: msg)
    (hn4 : ¬("syntax error".toList <:+: List.map Char.toLower msg ∨
             ("line".toList <:+: msg ∧ "position".toList <:+: msg)))
    (h : "exceeded the query timeout".toList <:+: msg ∨
         "execution time exceeded".toList <:+: msg) :
    handle_trino_error msg =
      TrinoTimeoutError ("Query execution timed out: ".toList ++ msg) (some msg) := by
  unfold handle_trino_error
  rw [if_neg hn1, if_neg hn2, if_neg hn3, if_neg hn4, if_pos h]

lemma htE_default {msg : List Char}
    (hn1 : ¬("Connection refused".toList <:+: msg ∨
             "Failed to establish a new connection".toList <:+: msg))
    (hn2 : ¬("Invalid credentials".toList <:+: msg ∨
             "Authentication failed".toList <:+: msg))
    (hn3 : ¬ "does not exist".toList <:+: msg)
    (hn4 : ¬("syntax error".toList <:+: List.map Char.toLower msg ∨
             ("line".toList <:+: msg ∧ "position".toList <:+: msg)))
    (hn5 : ¬("exceeded the query timeout".toList <:+: msg ∨
             "execution time exceeded".toList <:+: msg)) :
    handle_trino_error msg =
      TrinoQueryError ("Error executing Trino query: ".toList ++ msg) (some msg) := by
  unfold handle_trino_error
  rw [if_neg hn1, if_neg hn2, if_neg hn3, if_neg hn4, if_neg hn5]


/-! ### Re-classification of already-classified messages (for C4) -/

lemma reclass_resource {P msg : List Char}
    (hP1 : cleanFor ("Connection refused".toList) P)
    (hP2 : cleanFor ("Failed to establish a new connection".toList) P)
    (hP3 : cleanFor ("Invalid credentials".toList) P)
    (hP4 : cleanFor ("Authentication failed".toList) P)
    (h1 : ¬("Connection refused".toList <:+: msg ∨
            "Failed to establish a new connection".toList <:+: msg))
    (h2 : ¬("Invalid credentials".toList <:+: msg ∨
            "Authentication failed".toList <:+: msg))
    (h5 : "does not exist".toList <:+: msg) :
    (handle_trino_error (P ++ msg)).code = ErrorCode.TRINO_RESOURCE_ERROR := by
  have hc1 : ¬("Connection refused".toList <:+: P ++ msg ∨
               "Failed to establish a new connection".toList <:+: P ++ msg) := by
    rintro (hc | hc)
    · exact not_infix_append hP1 (fun hx => h1 (Or.inl hx)) hc
    · exact not_infix_append hP2 (fun hx => h1 (Or.inr hx)) hc
  have hc2 : ¬("Invalid credentials".toList <:+: P ++ msg ∨
               "Authentication failed".toList <:+: P ++ msg) := by
    rintro (hc | hc)
    · exact not_infix_append hP3 (fun hx => h2 (Or.inl hx)) hc
    · exact not_infix_append hP4 (fun hx => h2 (Or.inr hx)) hc
  obtain ⟨Q, _, hEq⟩ := htE_resource hc1 hc2 (infix_append_right h5)
  rw [hEq]
  rfl

lemma reclass_syntaxBranch {P msg : List Char}
    (hP1 : cleanFor ("Connection refused".toList) P)
    (hP2 : cleanFor ("Failed to establish a new connection".toList) P)
    (hP3 : cleanFor ("Invalid credentials".toList) P)
    (hP4 : cleanFor ("Authentication failed".toList) P)
    (hP5 : cleanFor ("does not exist".toList) P)
    (hPs : "syntax error".toList <:+: List.map Char.toLower P)
    (h1 : ¬("Connection refused".toList <:+: msg ∨
            "Failed to establish a new connection".toList <:+: msg))
    (h2 : ¬("Invalid credentials".toList <:+: msg ∨
            "Authentication failed".toList <:+: msg))
    (h5 : ¬ "does not exist".toList <:+: msg) :
    handle_trino_error (P ++ msg) =
      TrinoSyntaxError ("SQL syntax error: ".toList ++ (P ++ msg)) (some (P ++ msg)) := by
  have hc1 : ¬("Connection refused".toList <:+: P ++ msg ∨
               "Failed to establish a new connection".toList <:+: P ++ msg) := by
    rintro (hc | hc)
    · exact not_infix_append hP1 (fun hx => h1 (Or.inl hx)) hc
    · exact not_infix_append hP2 (fun hx => h1 (Or.inr hx)) hc
  have hc2 : ¬("Invalid credentials".toList <:+: P ++ msg ∨
               "Authentication failed".toList <:+: P ++ msg) := by
    rintro (hc | hc)
    · exact not_infix_append hP3 (fun hx => h2 (Or.inl hx)) hc
    · exact not_infix_append hP4 (fun hx => h2 (Or.inr hx)) hc
  have hc3 : ¬ "does not exist".toList <:+: P ++ msg := not_infix_append hP5 h5
  have hc4 : "syntax error".toList <:+: List.map Char.toLower (P ++ msg) := by
    rw [List.map_append]
    exact infix_append_left hPs
  exact htE_syntaxBranch hc1 hc2 hc3 (Or.inl hc4)

lemma reclass_timeout {msg : List Char}
    (h1 : ¬("Connection refused".toList <:+: msg ∨
            "Failed to establish a new connection".toList <:+: msg))
    (h2 : ¬("Invalid credentials".toList <:+: msg ∨
            "Authentication failed".toList <:+: msg))
    (h5 : ¬ "does not exist".toList <:+: msg)
    (h6 : ¬("syntax error".toList <:+: List.map Char.toLower msg ∨
            ("line".toList <:+: msg ∧ "position".toList <:+: msg)))
    (h8 : "exceeded the query timeout".toList <:+: msg ∨
          "execution time exceeded".toList <:+: msg) :
    (handle_trino_error ("Query execution timed out: ".toList ++ msg)).code =
      ErrorCode.TRINO_TIMEOUT_ERROR := by
  have hc1 : ¬("Connection refused".toList <:+: "Query execution timed out: ".toList ++ msg ∨
               "Failed to establish a new connection".toList <:+: "Query execution timed out: ".toList ++ msg) := by
    rintro (hc | hc)
    · exact not_infix_append (by decide) (fun hx => h1 (Or.inl hx)) hc
    · exact not_infix_append (by decide) (fun hx => h1 (Or.inr hx)) hc
  have hc2 : ¬("Invalid credentials".toList <:+: "Query execution timed out: ".toList ++ msg ∨
               "Authentication failed".toList <:+: "Query execution timed out: ".toList ++ msg) := by
    rintro (hc | hc)
    · exact not_infix_append (by decide) (fun hx => h2 (Or.inl hx)) hc
    · exact not_infix_append (by decide) (fun hx => h2 (Or.inr hx)) hc
  have hc3 : ¬ "does not exist".toList <:+: "Query execution timed out: ".toList ++ msg :=
    not_infix_append (by decide) h5
  have hc4 : ¬("syntax error".toList <:+: List.map Char.toLower ("Query execution timed out: ".toList ++ msg) ∨
               ("line".toList <:+: "Query execution timed out: ".toList ++ msg ∧
                "position".toList <:+: "Query execution timed out: ".toList ++ msg)) := by
    rintro (hc | ⟨hl, hp⟩)
    · rw [List.map_append] at hc
      exact not_infix_append (p := "syntax error".toList)
        (P := List.map Char.toLower ("Query execution timed out: ".toList)) (by decide)
        (fun hx => h6 (Or.inl hx)) hc
    · rcases not_and_or.mp (fun hx => h6 (Or.inr hx)) with hnl | hnp
      · exact not_infix_append (by decide) hnl hl
      · exact not_infix_append (by decide) hnp hp
  have hc5 : "exceeded the query timeout".toList <:+: "Query execution timed out: ".toList ++ msg ∨
             "execution time exceeded".toList <:+: "Query execution timed out: ".toList ++ msg := by
    rcases h8 with h | h
    · exact Or.inl (infix_append_right h)
    · exact Or.inr (infix_append_right h)
  rw [htE_timeout hc1 hc2 hc3 hc4 hc5]
  rfl

lemma reclass_default {msg : List Char}
    (h1 : ¬("Connection refused".toList <:+: msg ∨
            "Failed to establish a new connection".toList <:+: msg))
    (h2 : ¬("Invalid credentials".toList <:+: msg ∨
            "Authentication failed".toList <:+: msg))
    (h5 : ¬ "does not exist".toList <:+: msg)
    (h6 : ¬("syntax error".toList <:+: List.map Char.toLower msg ∨
            ("line".toList <:+: msg ∧ "position".toList <:+: msg)))
    (h8 : ¬("exceeded the query timeout".toList <:+: msg ∨
            "execution time exceeded".toList <:+: msg)) :
    (handle_trino_error ("Error executing Trino query: ".toList ++ msg)).code =
      ErrorCode.TRINO_QUERY_ERROR := by
  have hc1 : ¬("Connection refused".toList <:+: "Error executing Trino query: ".toList ++ msg ∨
               "Failed to establish a new connection".toList <:+: "Error executing Trino query: ".toList ++ msg) := by
    rintro (hc | hc)
    · exact not_infix_append (by decide) (fun hx => h1 (Or.inl hx)) hc
    · exact not_infix_append (by decide) (fun hx => h1 (Or.inr hx)) hc
  have hc2 : ¬("Invalid credentials".toList <:+: "Error executing Trino query: ".toList ++ msg ∨
               "Authentication failed".toList <:+: "Error executing Trino query: ".toList ++ msg) := by
    rintro (hc | hc)
    · exact not_infix_append (by decide) (fun hx => h2 (Or.inl hx)) hc
    · exact not_infix_append (by decide) (fun hx => h2 (Or.inr hx)) hc
  have hc3 : ¬ "does not exist".toList <:+: "Error executing Trino query: ".toList ++ msg :=
    not_infix_append (by decide) h5
  have hc4 : ¬("syntax error".toList <:+: List.map Char.toLower ("Error executing Trino query: ".toList ++ msg) ∨
               ("line".toList <:+: "Error executing Trino query: ".toList ++ msg ∧
                "position".toList <:+: "Error executing Trino query: ".toList ++ msg)) := by
    rintro (hc | ⟨hl, hp⟩)
    · rw [List.map_append] at hc
      exact not_infix_append (p := "syntax error".toList)
        (P := List.map Char.toLower ("Error executing Trino query: ".toList)) (by decide)
        (fun hx => h6 (Or.inl hx)) hc
    · rcases not_and_or.mp (fun hx => h6 (Or.inr hx)) with hnl | hnp
      · exact not_infix_append (by decide) hnl hl
      · exact not_infix_append (by decide) hnp hp
  have hc5 : ¬("exceeded the query timeout".toList <:+: "Error executing Trino query: ".toList ++ msg ∨
               "execution time exceeded".toList <:+: "Error executing Trino query: ".toList ++ msg) := by
    rintro (hc | hc)
    · exact not_infix_append (by decide) (fun hx => h8 (Or.inl hx)) hc
    · exact not_infix_append (by decide) (fun hx => h8 (Or.inr hx)) hc
  rw [htE_default hc1 hc2 hc3 hc4 hc5]
  rfl


/-- C4 (amended): re-applying the classifier to an already-classified error
preserves the numeric code for every taxonomy member except the
connection-error kind, which re-classifies as the generic query-error kind. -/
theorem handle_trino_error_reclassify_code (msg : List Char) :
    (handle_trino_error (handle_trino_error msg).message).code =
      if (handle_trino_error msg).code = ErrorCode.TRINO_CONNECTION_ERROR
      then ErrorCode.TRINO_QUERY_ERROR
      else (handle_trino_error msg).code := by
  by_cases hc1 : "Connection refused".toList <:+: msg ∨
      "Failed to establish a new connection".toList <:+: msg
  · rw [htE_conn hc1]
    have hmsg : (TrinoConnectionError
        ("Failed to connect to Trino server. Please check that the server is running and accessible.".toList)
        (some msg)).message =
        "Failed to connect to Trino server. Please check that the server is running and accessible.".toList := rfl
    have hcode : (TrinoConnectionError
        ("Failed to connect to Trino server. Please check that the server is running and accessible.".toList)
        (some msg)).code = ErrorCode.TRINO_CONNECTION_ERROR := rfl
    rw [hmsg, hcode]
    decide
  · by_cases hc2 : "Invalid credentials".toList <:+: msg ∨
        "Authentication failed".toList <:+: msg
    · rw [htE_auth hc1 hc2]
      have hmsg : (TrinoAuthError
          ("Authentication failed. Please check your credentials.".toList) (some msg)).message =
          "Authentication failed. Please check your credentials.".toList := rfl
      have hcode : (TrinoAuthError
          ("Authentication failed. Please check your credentials.".toList) (some msg)).code =
          ErrorCode.TRINO_AUTH_ERROR := rfl
      rw [hmsg, hcode]
      decide
    · by_cases hc3 : "does not exist".toList <:+: msg
      · obtain ⟨P, hPm, hEq⟩ := htE_resource hc1 hc2 hc3
        rw [hEq]
        have hmsg : (TrinoResourceError (P ++ msg) (some msg)).message = P ++ msg := rfl
        have hcode : (TrinoResourceError (P ++ msg) (some msg)).code =
            ErrorCode.TRINO_RESOURCE_ERROR := rfl
        rw [hmsg, hcode, if_neg (by decide)]
        fin_cases hPm
        · exact reclass_resource (by decide) (by decide) (by decide) (by decide) hc1 hc2 hc3
        · exact reclass_resource (by decide) (by decide) (by decide) (by decide) hc1 hc2 hc3
        · exact reclass_resource (by decide) (by decide) (by decide) (by decide) hc1 hc2 hc3
        · exact reclass_resource (by decide) (by decide) (by decide) (by decide) hc1 hc2 hc3
      · by_cases hc4 : "syntax error".toList <:+: List.map Char.toLower msg ∨
            ("line".toList <:+: msg ∧ "position".toList <:+: msg)
        · rw [htE_syntaxBranch hc1 hc2 hc3 hc4]
          have hmsg : (TrinoSyntaxError ("SQL syntax error: ".toList ++ msg) (some msg)).message =
              "SQL syntax error: ".toList ++ msg := rfl
          have hcode : (TrinoSyntaxError ("SQL syntax error: ".toList ++ msg) (some msg)).code =
              ErrorCode.TRINO_SYNTAX_ERROR := rfl
          rw [hmsg, hcode, if_neg (by decide),
            reclass_syntaxBranch (by decide) (by decide) (by decide) (by decide) (by decide)
              (by decide) hc1 hc2 hc3]
          rfl
        · by_cases hc5 : "exceeded the query timeout".toList <:+: msg ∨
              "execution time exceeded".toList <:+: msg
          · rw [htE_timeout hc1 hc2 hc3 hc4 hc5]
            have hmsg : (TrinoTimeoutError ("Query execution timed out: ".toList ++ msg)
                (some msg)).message = "Query execution timed out: ".toList ++ msg := rfl
            have hcode : (TrinoTimeoutError ("Query execution timed out: ".toList ++ msg)
                (some msg)).code = ErrorCode.TRINO_TIMEOUT_ERROR := rfl
            rw [hmsg, hcode, if_neg (by decide)]
            exact reclass_timeout hc1 hc2 hc3 hc4 hc5
          · rw [htE_default hc1 hc2 hc3 hc4 hc5]
            have hmsg : (TrinoQueryError ("Error executing Trino query: ".toList ++ msg)
                (some msg)).message = "Error executing Trino query: ".toList ++ msg := rfl
            have hcode : (TrinoQueryError ("Error executing Trino query: ".toList ++ msg)
                (some msg)).code = ErrorCode.TRINO_QUERY_ERROR := rfl
            rw [hmsg, hcode, if_neg (by decide)]
            exact reclass_default hc1 hc2 hc3 hc4 hc5

/-- C4 counterexample: double classification of a connection-refused failure
does not preserve the error code, so classification is not idempotent. -/
theorem handle_trino_error_not_idempotent :
    (handle_trino_error ("Connection refused".toList)).code =
      ErrorCode.TRINO_CONNECTION_ERROR ∧
    (handle_trino_error
        (handle_trino_error ("Connection refused".toList)).message).code =
      ErrorCode.TRINO_QUERY_ERROR ∧
    ¬ (handle_trino_error
        (handle_trino_error ("Connection refused".toList)).message).code =
      (handle_trino_error ("Connection refused".toList)).code := by
  refine ⟨by decide, by decide, by decide⟩

lemma retryGo_caught {d : ℚ} {transport : Nat → AttemptOutcome} {m : Nat → List Char}
    (hm : ∀ k, caughtMsg (transport k) = some (m k)) :
    ∀ r : Nat, 0 < r → ∀ (a : Nat) (last : Option (List Char)),
      retryGo d transport r a last =
        (RetryResult.err (handle_trino_error (m (a + r - 1))), a + r,
         (List.range (r - 1)).map (fun k => d * 2 ^ (a + k))) := by
  intro r
  induction r with
  | zero => intro h; exact absurd h (by omega)
  | succ r ih =>
    intro _ a last
    have hc := hm a
    cases htr : transport a with
    | resp resp =>
      rw [htr] at hc
      simp only [caughtMsg] at hc
      split at hc
      next hcond =>
        have herr : resp.errText = m a := by injection hc
        simp only [retryGo, htr]
        rw [if_neg hcond.2.2.1, if_neg hcond.2.2.2, if_pos ⟨hcond.1, hcond.2.1⟩]
        cases r with
        | zero => simp [retryGo, herr]
        | succ r =>
          rw [if_neg (by omega : ¬ r + 1 = 0),
            ih (by omega) (a + 1) (some resp.errText)]
          simp only [Prod.mk.injEq]
          refine ⟨?_, ?_, ?_⟩
          · rw [show a + 1 + (r + 1) - 1 = a + (r + 1 + 1) - 1 from by omega]
          · omega
          · rw [show r + 1 + 1 - 1 = r + 1 from by omega,
              show r + 1 - 1 = r from by omega,
              List.range_succ_eq_map, List.map_cons, List.map_map]
            refine congrArg₂ List.cons (by norm_num) ?_
            refine List.map_congr_left ?_
            intro k _
            simp only [Function.comp]
            rw [show a + 1 + k = a + Nat.succ k from by omega]
      next hcond => exact absurd hc (by simp)
    | exn mexn =>
      rw [htr] at hc
      simp only [caughtMsg] at hc
      have herr : mexn = m a := by injection hc
      simp only [retryGo, htr]
      cases r with
      | zero => simp [retryGo, herr]
      | succ r =>
        rw [if_neg (by omega : ¬ r + 1 = 0), ih (by omega) (a + 1) (some mexn)]
        simp only [Prod.mk.injEq]
        refine ⟨?_, ?_, ?_⟩
        · rw [show a + 1 + (r + 1) - 1 = a + (r + 1 + 1) - 1 from by omega]
        · omega
        · rw [show r + 1 + 1 - 1 = r + 1 from by omega,
            show r + 1 - 1 = r from by omega,
            List.range_succ_eq_map, List.map_cons, List.map_map]
          refine congrArg₂ List.cons (by norm_num) ?_
          refine List.map_congr_left ?_
          intro k _
          simp only [Function.comp]
          rw [show a + 1 + k = a + Nat.succ k from by omega]


lemma retry_auth_401 {d : ℚ} {transport : Nat → AttemptOutcome} {r a : Nat}
    {last : Option (List Char)} {resp : HttpResponse}
    (htr : transport a = AttemptOutcome.resp resp) (h401 : resp.status = 401) :
    retryGo d transport (r + 1) a last =
      (RetryResult.err (TrinoAuthError
          ("Authentication failed. Check your credentials.".toList) none), a + 1, []) := by
  simp only [retryGo, htr]
  rw [if_pos h401]

lemma retry_auth_403 {d : ℚ} {transport : Nat → AttemptOutcome} {r a : Nat}
    {last : Option (List Char)} {resp : HttpResponse}
    (htr : transport a = AttemptOutcome.resp resp) (h403 : resp.status = 403) :
    retryGo d transport (r + 1) a last =
      (RetryResult.err (TrinoAuthError
          ("Permission denied. The user does not have sufficient privileges.".toList) none),
       a + 1, []) := by
  simp only [retryGo, htr]
  rw [if_neg (by simp [h403]), if_pos h403]

/-- C2: with `retryAttempts = N` against a transport failing transiently on
every attempt, `_request_with_retry` performs exactly N HTTP attempts, the
call fails, and the waits slept are `retry_delay * 2 ^ attempt` for the
0-based attempt indices `0 .. N-2` (a wait follows every attempt but the
last). -/
theorem retry_transient_attempts_and_backoff
    (N : Nat) (d : ℚ) (transport : Nat → AttemptOutcome) (m : Nat → List Char)
    (h : ∀ k, transport k = AttemptOutcome.exn (m k)) :
    (request_with_retry d N transport).2.1 = N ∧
    (request_with_retry d N transport).2.2 =
      (List.range (N - 1)).map (fun k => d * 2 ^ k) ∧
    ∃ e, (request_with_retry d N transport).1 = RetryResult.err e := by
  have hm : ∀ k, caughtMsg (transport k) = some (m k) := by
    intro k
    rw [h k]
    rfl
  cases N with
  | zero => exact ⟨rfl, rfl, ⟨_, rfl⟩⟩
  | succ n =>
    unfold request_with_retry
    rw [retryGo_caught hm (n + 1) (by omega) 0 none]
    refine ⟨by simp, ?_, ⟨_, rfl⟩⟩
    simp only [Nat.zero_add, Nat.add_sub_cancel]

/-- C2 witness: three attempts, unit base delay, transport that always
raises: exactly 3 attempts, waits `[d * 2^0, d * 2^1]`, failure. -/
theorem retry_transient_attempts_and_backoff_witness :
    (request_with_retry 1 3 (fun _ => AttemptOutcome.exn ("boom".toList))).2.1 = 3 ∧
    (request_with_retry 1 3 (fun _ => AttemptOutcome.exn ("boom".toList))).2.2 =
      (List.range (3 - 1)).map (fun k => (1 : ℚ) * 2 ^ k) ∧
    ∃ e, (request_with_retry 1 3 (fun _ => AttemptOutcome.exn ("boom".toList))).1 =
      RetryResult.err e :=
  retry_transient_attempts_and_backoff 3 1 _ (fun _ => "boom".toList) (fun _ => rfl)


/-- C3 (amended): an HTTP 401 or 403 makes the request fail immediately as
an authentication error (code -33002) after exactly one attempt and with no
back-off wait; but any other 4xx (or 5xx) status raises an `HTTPError`
inside the loop, which — being a `requests.RequestException` — is caught
and retried exactly like a transient failure, so the response is not
propagated: after the attempt budget the call fails with the classified
text of the last `HTTPError`. -/
theorem retry_auth_stop_and_4xx_retried :
    (∀ (d : ℚ) (n : Nat) (transport : Nat → AttemptOutcome) (resp : HttpResponse),
      transport 0 = AttemptOutcome.resp resp → resp.status = 401 →
      request_with_retry d (n + 1) transport =
        (RetryResult.err (TrinoAuthError
            ("Authentication failed. Check your credentials.".toList) none), 1, [])) ∧
    (∀ (d : ℚ) (n : Nat) (transport : Nat → AttemptOutcome) (resp : HttpResponse),
      transport 0 = AttemptOutcome.resp resp → resp.status = 403 →
      request_with_retry d (n + 1) transport =
        (RetryResult.err (TrinoAuthError
            ("Permission denied. The user does not have sufficient privileges.".toList) none),
         1, [])) ∧
    (TrinoAuthError ("Authentication failed. Check your credentials.".toList) none).code =
      ErrorCode.TRINO_AUTH_ERROR ∧
    (∀ (d : ℚ) (N : Nat) (transport : Nat → AttemptOutcome) (rs : Nat → HttpResponse),
      0 < N →
      (∀ k, transport k = AttemptOutcome.resp (rs k)) →
      (∀ k, 400 ≤ (rs k).status ∧ (rs k).status < 600 ∧
            (rs k).status ≠ 401 ∧ (rs k).status ≠ 403) →
      request_with_retry d N transport =
        (RetryResult.err (handle_trino_error ((rs (N - 1)).errText)), N,
         (List.range (N - 1)).map (fun k => d * 2 ^ k))) := by
  refine ⟨?_, ?_, rfl, ?_⟩
  · intro d n transport resp htr h401
    exact retry_auth_401 htr h401
  · intro d n transport resp htr h403
    exact retry_auth_403 htr h403
  · intro d N transport rs hN h hst
    have hm : ∀ k, caughtMsg (transport k) = some ((rs k).errText) := by
      intro k
      rw [h k]
      simp only [caughtMsg]
      rw [if_pos (hst k)]
    unfold request_with_retry
    rw [retryGo_caught hm N hN 0 none]
    simp only [Nat.zero_add]

/-- C3 witness: a 401 on the first of four attempts stops immediately with
the auth error; a constant-404 transport is retried for the whole budget. -/
theorem retry_auth_stop_and_4xx_retried_witness :
    request_with_retry 1 4 (fun _ => AttemptOutcome.resp ⟨401, "e".toList⟩) =
      (RetryResult.err (TrinoAuthError
          ("Authentication failed. Check your credentials.".toList) none), 1, []) ∧
    request_with_retry 1 3
        (fun _ => AttemptOutcome.resp ⟨404, "404 Client Error: Not Found for url: u".toList⟩) =
      (RetryResult.err (handle_trino_error
          ("404 Client Error: Not Found for url: u".toList)), 3,
       (List.range (3 - 1)).map (fun k => (1 : ℚ) * 2 ^ k)) :=
  ⟨retry_auth_stop_and_4xx_retried.1 1 3 _ ⟨401, "e".toList⟩ rfl rfl,
   retry_auth_stop_and_4xx_retried.2.2.2 1 3 _
     (fun _ => ⟨404, "404 Client Error: Not Found for url: u".toList⟩)
     (by omega) (fun _ => rfl) (fun _ => by exact ⟨by norm_num, by norm_num, by norm_num, by norm_num⟩)⟩

/-- C3 counterexample: with a transport answering 404 on every attempt and
a budget of three, the client performs three attempts — not one — and the
call ends in a classified error, not in the 404 response being returned. -/
theorem retry_4xx_not_propagated :
    (request_with_retry 1 3
        (fun _ => AttemptOutcome.resp ⟨404, "404 Client Error: Not Found for url: u".toList⟩)).2.1
      = 3 ∧
    ¬ (request_with_retry 1 3
        (fun _ => AttemptOutcome.resp ⟨404, "404 Client Error: Not Found for url: u".toList⟩)).2.1
      = 1 ∧
    ¬ ∃ r, (request_with_retry 1 3
        (fun _ => AttemptOutcome.resp ⟨404, "404 Client Error: Not Found for url: u".toList⟩)).1
      = RetryResult.ok r := by
  refine ⟨by decide, by decide, ?_⟩
  rintro ⟨r, hr⟩
  have hne : (request_with_retry 1 3
      (fun _ => AttemptOutcome.resp ⟨404, "404 Client Error: Not Found for url: u".toList⟩)).1
      = RetryResult.err (handle_trino_error
          ("404 Client Error: Not Found for url: u".toList)) := by decide
  rw [hne] at hr
  exact absurd hr (by simp)

lemma hset_other {st : Headers} {k v q : List Char} (h : q ≠ k) :
    hset st k v q = st q := by
  unfold hset
  rw [if_neg h]

lemma restoreHeader_self (st : Headers) (k : List Char) (orig : Option (List Char)) :
    restoreHeader st k orig k =
      match orig with
      | some s => if s = [] then none else some s
      | none => none := by
  unfold restoreHeader hset hpop
  cases orig with
  | none => simp
  | some s =>
    by_cases hs : s = []
    · simp [hs]
    · simp [hs]

lemma restoreHeader_other {st : Headers} {k orig q} (h : q ≠ k) :
    restoreHeader st k orig q = st q := by
  unfold restoreHeader hset hpop
  cases orig with
  | none => simp [h]
  | some s =>
    by_cases hs : s = []
    · simp [hs, h]
    · simp [hs, h]

/-- C1 (code_bug): a first response already carrying more rows than the cap
is returned untrimmed, on the sync path (`execute_query`, whose first-page
rows bypass the truncation that only the continuation loop performs) and
on the async path (`get_query_results`, same pattern).  With `maxRows = 2`
and a single 3-row page both return 3 rows. -/
theorem first_page_exceeds_row_cap :
    execute_query (ρ := Nat)
        ⟨some [], some [10, 20, 30], none, none⟩
        (fun _ => ⟨none, none, none, none⟩) 2 5 =
      Except.ok ⟨[], [10, 20, 30]⟩ ∧
    get_query_results (ρ := Nat) ("q1".toList) ("http://localhost:8080".toList)
        [("state".toList, Json.str ("FINISHED".toList)),
         ("outputStage".toList, Json.obj [("self".toList, Json.str ("u".toList))])]
        (fun _ => ⟨some [], some [10, 20, 30], none, none⟩) 2 5 =
      Except.ok ⟨[], [10, 20, 30], none⟩ ∧
    ¬ (([10, 20, 30] : List Nat).length ≤ 2) := by
  refine ⟨rfl, rfl, by decide⟩

/-- C5: the classifier maps (i) any failure whose message contains
"Connection refused" to the connection-error kind (-33000); (ii) an engine
error object with `errorType = "SYNTAX_ERROR"` — whose message does not
itself match one of the earlier, higher-priority message patterns — to the
syntax-error kind (-33005) through `execute_query`; (iii) an HTTP 403 to
the authentication-error kind (-33002) in `_request_with_retry`. -/
theorem classifier_connection_syntax_auth_rules :
    (∀ msg : List Char, "Connection refused".toList <:+: msg →
      (handle_trino_error msg).code = ErrorCode.TRINO_CONNECTION_ERROR) ∧
    (∀ (cols : Option (List (List Char))) (dat : Option (List Nat))
       (nuri ename : Option (List Char)) (m : List Char)
       (pages : List Char → QueryResponse Nat) (max_rows fuel : Nat),
      ¬ "Connection refused".toList <:+: m →
      ¬ "Failed to establish a new connection".toList <:+: m →
      ¬ "Invalid credentials".toList <:+: m →
      ¬ "Authentication failed".toList <:+: m →
      ¬ "does not exist".toList <:+: m →
      ∃ e, execute_query ⟨cols, dat, some ⟨some m, some ("SYNTAX_ERROR".toList), ename⟩, nuri⟩
          pages max_rows fuel = Except.error e ∧
        e.code = ErrorCode.TRINO_SYNTAX_ERROR) ∧
    (∀ (d : ℚ) (n : Nat) (transport : Nat → AttemptOutcome) (resp : HttpResponse),
      transport 0 = AttemptOutcome.resp resp → resp.status = 403 →
      (request_with_retry d (n + 1) transport).1 =
        RetryResult.err (TrinoAuthError
          ("Permission denied. The user does not have sufficient privileges.".toList) none) ∧
      (TrinoAuthError
          ("Permission denied. The user does not have sufficient privileges.".toList) none).code =
        ErrorCode.TRINO_AUTH_ERROR) := by
  refine ⟨?_, ?_, ?_⟩
  · intro msg h
    rw [htE_conn (Or.inl h)]
    rfl
  · intro cols dat nuri ename m pages max_rows fuel h1 h2 h3 h4 h5
    have hA : ¬("Connection refused".toList <:+: m ∨
        "Failed to establish a new connection".toList <:+: m) := by
      rintro (h | h)
      exacts [h1 h, h2 h]
    have hB : ¬("Invalid credentials".toList <:+: m ∨
        "Authentication failed".toList <:+: m) := by
      rintro (h | h)
      exacts [h3 h, h4 h]
    have e0 : execute_query ⟨cols, dat, some ⟨some m, some ("SYNTAX_ERROR".toList), ename⟩, nuri⟩
        pages max_rows fuel =
        Except.error (handle_trino_error
          (engineErrorRaise ⟨some m, some ("SYNTAX_ERROR".toList), ename⟩).message) := rfl
    have e1 : engineErrorRaise ⟨some m, some ("SYNTAX_ERROR".toList), ename⟩ =
        handle_trino_error ("Syntax error: ".toList ++ m) := by
      simp only [engineErrorRaise, Option.getD_some]
      rw [if_pos List.infix_rfl]
    have e2 : handle_trino_error ("Syntax error: ".toList ++ m) =
        TrinoSyntaxError ("SQL syntax error: ".toList ++ ("Syntax error: ".toList ++ m))
          (some ("Syntax error: ".toList ++ m)) :=
      reclass_syntaxBranch (by decide) (by decide) (by decide) (by decide) (by decide)
        (by decide) hA hB h5
    have hA2 : ¬("Connection refused".toList <:+: "Syntax error: ".toList ++ m ∨
        "Failed to establish a new connection".toList <:+: "Syntax error: ".toList ++ m) := by
      rintro (h | h)
      exacts [not_infix_append (by decide) h1 h, not_infix_append (by decide) h2 h]
    have hB2 : ¬("Invalid credentials".toList <:+: "Syntax error: ".toList ++ m ∨
        "Authentication failed".toList <:+: "Syntax error: ".toList ++ m) := by
      rintro (h | h)
      exacts [not_infix_append (by decide) h3 h, not_infix_append (by decide) h4 h]
    have h52 : ¬ "does not exist".toList <:+: "Syntax error: ".toList ++ m :=
      not_infix_append (by decide) h5
    have e3 : handle_trino_error
        ("SQL syntax error: ".toList ++ ("Syntax error: ".toList ++ m)) =
        TrinoSyntaxError
          ("SQL syntax error: ".toList ++
            ("SQL syntax error: ".toList ++ ("Syntax error: ".toList ++ m)))
          (some ("SQL syntax error: ".toList ++ ("Syntax error: ".toList ++ m))) :=
      reclass_syntaxBranch (by decide) (by decide) (by decide) (by decide) (by decide)
        (by decide) hA2 hB2 h52
    refine ⟨TrinoSyntaxError
      ("SQL syntax error: ".toList ++
        ("SQL syntax error: ".toList ++ ("Syntax error: ".toList ++ m)))
      (some ("SQL syntax error: ".toList ++ ("Syntax error: ".toList ++ m))), ?_, rfl⟩
    rw [e0, e1, e2]
    have hm : (TrinoSyntaxError ("SQL syntax error: ".toList ++ ("Syntax error: ".toList ++ m))
        (some ("Syntax error: ".toList ++ m))).message =
        "SQL syntax error: ".toList ++ ("Syntax error: ".toList ++ m) := rfl
    rw [hm, e3]
  · intro d n transport resp htr h403
    constructor
    · unfold request_with_retry
      rw [retry_auth_403 htr h403]
    · rfl

/-- C5 witness: concrete instances of the three classifier rules. -/
theorem classifier_connection_syntax_auth_rules_witness :
    (handle_trino_error ("Connection refused".toList)).code =
      ErrorCode.TRINO_CONNECTION_ERROR ∧
    (∃ e, execute_query (ρ := Nat)
        ⟨none, none, some ⟨some ("mismatched input".toList),
          some ("SYNTAX_ERROR".toList), none⟩, none⟩
        (fun _ => ⟨none, none, none, none⟩) 100 1 = Except.error e ∧
      e.code = ErrorCode.TRINO_SYNTAX_ERROR) ∧
    ((request_with_retry 1 1 (fun _ => AttemptOutcome.resp ⟨403, []⟩)).1 =
      RetryResult.err (TrinoAuthError
        ("Permission denied. The user does not have sufficient privileges.".toList) none) ∧
     (TrinoAuthError
        ("Permission denied. The user does not have sufficient privileges.".toList) none).code =
      ErrorCode.TRINO_AUTH_ERROR) :=
  ⟨classifier_connection_syntax_auth_rules.1 ("Connection refused".toList) (by decide),
   classifier_connection_syntax_auth_rules.2.1 none none none none
     ("mismatched input".toList) (fun _ => ⟨none, none, none, none⟩) 100 1
     (by decide) (by decide) (by decide) (by decide) (by decide),
   classifier_connection_syntax_auth_rules.2.2 1 0
     (fun _ => AttemptOutcome.resp ⟨403, []⟩) ⟨403, []⟩ rfl rfl⟩

/-- C6: `run_query_sync` with the empty parameter mapping fails with the
invalid-params code, the message references `sql`, and the client is never
invoked (the second component records whether `exec` was used). -/
theorem run_query_sync_missing_sql {ρ : Type}
    (exec : List Char → Int → Except MCPError (QueryResult ρ)) :
    run_query_sync (Json.obj []) exec =
      (Except.error (InvalidParams
        ("Missing required parameter: \x27sql\x27".toList)), false) ∧
    (InvalidParams ("Missing required parameter: \x27sql\x27".toList)).code =
      ErrorCode.INVALID_PARAMS ∧
    "sql".toList <:+:
      (InvalidParams ("Missing required parameter: \x27sql\x27".toList)).message := by
  refine ⟨rfl, rfl, by decide⟩


/-- C7 (amended): once a request passes the authentication gate, every
response to a parsed envelope — version error, success, or any dispatch
error — carries exactly the envelope id; the pre-parse 401 rejection is
the exception, answering with id null. -/
theorem mcp_endpoint_id_echo
    (is_auth_enabled : Bool) (username : Option (List Char)) (env : RPCEnvelope)
    (dispatch : List Char → Json → ClientState → DispatchOutcome × ClientState)
    (st : ClientState)
    (hauth : ¬(is_auth_enabled = true ∧ username = none)) :
    ((mcp_endpoint is_auth_enabled username (BodyOutcome.envelope env) dispatch st).1).id =
      env.id := by
  unfold mcp_endpoint
  rw [if_neg (by simpa using hauth)]
  show (if env.jsonrpc ≠ "2.0".toList then
      (({ status := 400, id := env.id,
          body := ResponseBody.error
            (InvalidRequest ("Unsupported JSON-RPC version: ".toList ++ env.jsonrpc)) } :
        RpcResponse), st)
    else
      dispatchResponse env
        (dispatch env.method (Json.obj (env.params.getD []))
          { st with user := effectiveUser username })).1.id = env.id
  by_cases hv : env.jsonrpc ≠ "2.0".toList
  · rw [if_pos hv]
  · rw [if_neg hv]
    rcases dispatch env.method (Json.obj (env.params.getD []))
        { st with user := effectiveUser username } with ⟨o, s2⟩
    cases o <;> rfl

/-- C7 witness: an authenticated well-formed call echoes its integer id. -/
theorem mcp_endpoint_id_echo_witness :
    ((mcp_endpoint false (some ("alice".toList))
        (BodyOutcome.envelope ⟨"2.0".toList, RpcId.num 5, "list_catalogs".toList, none⟩)
        (fun _ _ s => (DispatchOutcome.ok Json.null, s))
        ⟨"localhost".toList, 8080, "mcp-client".toList, none, none, fun _ => none⟩).1).id =
      RpcId.num 5 :=
  mcp_endpoint_id_echo false (some ("alice".toList))
    ⟨"2.0".toList, RpcId.num 5, "list_catalogs".toList, none⟩
    (fun _ _ s => (DispatchOutcome.ok Json.null, s))
    ⟨"localhost".toList, 8080, "mcp-client".toList, none, none, fun _ => none⟩
    (by simp)

/-- C7 counterexample: with authentication enabled and no authenticated
user, the 401 response to a valid envelope with id 5 carries id null, not
id 5. -/
theorem mcp_endpoint_auth_id_not_echoed :
    ((mcp_endpoint true none
        (BodyOutcome.envelope ⟨"2.0".toList, RpcId.num 5, "list_catalogs".toList, none⟩)
        (fun _ _ s => (DispatchOutcome.ok Json.null, s))
        ⟨"localhost".toList, 8080, "mcp-client".toList, none, none, fun _ => none⟩).1).id =
      RpcId.null ∧
    ¬ ((mcp_endpoint true none
        (BodyOutcome.envelope ⟨"2.0".toList, RpcId.num 5, "list_catalogs".toList, none⟩)
        (fun _ _ s => (DispatchOutcome.ok Json.null, s))
        ⟨"localhost".toList, 8080, "mcp-client".toList, none, none, fun _ => none⟩).1).id =
      RpcId.num 5 := by
  refine ⟨rfl, by decide⟩

/-- C9 (amended): dispatching a request that passed the authentication and
version gates mutates the process-wide shared client: its `user` field is
set to the authenticated username (or "anonymous") before dispatch and is
left mutated afterwards; identity is not passed to the handlers as a
parameter.  All other client fields are unchanged (the handlers
themselves, modelled state-preserving per C8, restore what they touch). -/
theorem mcp_endpoint_mutates_shared_user
    (is_auth_enabled : Bool) (username : Option (List Char)) (env : RPCEnvelope)
    (dispatch : List Char → Json → ClientState → DispatchOutcome × ClientState)
    (st : ClientState)
    (hd : ∀ meth p s, (dispatch meth p s).2 = s)
    (hauth : ¬(is_auth_enabled = true ∧ username = none))
    (hv : env.jsonrpc = "2.0".toList) :
    (mcp_endpoint is_auth_enabled username (BodyOutcome.envelope env) dispatch st).2 =
      { st with user := effectiveUser username } := by
  unfold mcp_endpoint
  rw [if_neg (by simpa using hauth)]
  show (if env.jsonrpc ≠ "2.0".toList then
      (({ status := 400, id := env.id,
          body := ResponseBody.error
            (InvalidRequest ("Unsupported JSON-RPC version: ".toList ++ env.jsonrpc)) } :
        RpcResponse), st)
    else
      dispatchResponse env
        (dispatch env.method (Json.obj (env.params.getD []))
          { st with user := effectiveUser username })).2 =
    { st with user := effectiveUser username }
  rw [if_neg (by simp [hv])]
  have hout := hd env.method (Json.obj (env.params.getD []))
    { st with user := effectiveUser username }
  rcases hdisp : dispatch env.method (Json.obj (env.params.getD []))
      { st with user := effectiveUser username } with ⟨o, s2⟩
  rw [hdisp] at hout
  cases o <;> simpa [dispatchResponse] using hout

/-- C9 witness: a request from alice leaves the shared client's user set
to "alice". -/
theorem mcp_endpoint_mutates_shared_user_witness :
    (mcp_endpoint false (some ("alice".toList))
        (BodyOutcome.envelope ⟨"2.0".toList, RpcId.null, "list_catalogs".toList, none⟩)
        (fun _ _ s => (DispatchOutcome.ok Json.null, s))
        ⟨"localhost".toList, 8080, "mcp-client".toList, none, none, fun _ => none⟩).2 =
      { host := "localhost".toList, port := 8080, user := "alice".toList,
        catalog := none, schema := none, http_headers := fun _ => none } :=
  mcp_endpoint_mutates_shared_user false (some ("alice".toList))
    ⟨"2.0".toList, RpcId.null, "list_catalogs".toList, none⟩
    (fun _ _ s => (DispatchOutcome.ok Json.null, s))
    ⟨"localhost".toList, 8080, "mcp-client".toList, none, none, fun _ => none⟩
    (fun _ _ _ => rfl) (by simp) rfl

/-- C9 counterexample: the shared session context is not restored after a
request — the user field differs from its pre-request value. -/
theorem mcp_endpoint_user_not_restored :
    ((mcp_endpoint false (some ("alice".toList))
        (BodyOutcome.envelope ⟨"2.0".toList, RpcId.null, "list_catalogs".toList, none⟩)
        (fun _ _ s => (DispatchOutcome.ok Json.null, s))
        ⟨"localhost".toList, 8080, "mcp-client".toList, none, none, fun _ => none⟩).2).user =
      "alice".toList ∧
    ¬ ((mcp_endpoint false (some ("alice".toList))
        (BodyOutcome.envelope ⟨"2.0".toList, RpcId.null, "list_catalogs".toList, none⟩)
        (fun _ _ s => (DispatchOutcome.ok Json.null, s))
        ⟨"localhost".toList, 8080, "mcp-client".toList, none, none, fun _ => none⟩).2).user =
      "mcp-client".toList := by
  refine ⟨rfl, by decide⟩

/-- C10: `get_query_status` is total over the shape of the info object: it
always yields `{queryId, state, error, stats}` with the handle echoed, and
when the engine omits the fields, state defaults to the string "UNKNOWN"
(which lies outside the five-state lifecycle enum of the specification),
error to null, and stats to the empty mapping. -/
theorem get_query_status_total_with_defaults
    (query_id : List Char) (query_info : List (List Char × Json)) :
    (get_query_status query_id query_info).queryId = query_id ∧
    (jlookup query_info ("state".toList) = none →
      (get_query_status query_id query_info).state = Json.str ("UNKNOWN".toList)) ∧
    (∀ s ∈ specLifecycleStates, ¬ ("UNKNOWN".toList = s)) ∧
    (jlookup query_info ("error".toList) = none →
      (get_query_status query_id query_info).error = Json.null) ∧
    (jlookup query_info ("statistics".toList) = none →
      (get_query_status query_id query_info).stats = Json.obj []) := by
  refine ⟨rfl, ?_, by decide, ?_, ?_⟩
  · intro h
    show (jlookup query_info ("state".toList)).getD (Json.str ("UNKNOWN".toList)) =
      Json.str ("UNKNOWN".toList)
    rw [h]
    rfl
  · intro h
    show (jlookup query_info ("error".toList)).getD Json.null = Json.null
    rw [h]
    rfl
  · intro h
    show (jlookup query_info ("statistics".toList)).getD (Json.obj []) = Json.obj []
    rw [h]
    rfl

/-- C10 witness: the empty info object takes every default. -/
theorem get_query_status_total_with_defaults_witness :
    (get_query_status ("q1".toList) []).queryId = "q1".toList ∧
    (get_query_status ("q1".toList) []).state = Json.str ("UNKNOWN".toList) ∧
    (get_query_status ("q1".toList) []).error = Json.null ∧
    (get_query_status ("q1".toList) []).stats = Json.obj [] :=
  ⟨(get_query_status_total_with_defaults ("q1".toList) []).1,
   (get_query_status_total_with_defaults ("q1".toList) []).2.1 rfl,
   (get_query_status_total_with_defaults ("q1".toList) []).2.2.2.1 rfl,
   (get_query_status_total_with_defaults ("q1".toList) []).2.2.2.2 rfl⟩


/-- C8 (amended): `list_schemas` and `list_tables` scope the
`X-Trino-Catalog` / `X-Trino-Schema` headers for the duration of the call
only, for every outcome of the wrapped query (`exec` is arbitrary, so this
covers success and failure): afterwards each header equals its value from
before the call — provided the prior value was not the empty string.  A
previously-present empty-string header is removed instead of restored
(Python truthiness in the `finally` block). -/
theorem list_scope_headers_restored {γ : Type} (st : Headers) (catalog schema : List Char)
    (exec exec2 : Headers → Except MCPError (QueryResult (List γ))) :
    (st ("X-Trino-Catalog".toList) ≠ some [] →
      (list_schemas st catalog exec).2 ("X-Trino-Catalog".toList) =
        st ("X-Trino-Catalog".toList)) ∧
    ((list_schemas st catalog exec).2 ("X-Trino-Schema".toList) =
      st ("X-Trino-Schema".toList)) ∧
    (st ("X-Trino-Catalog".toList) = some [] →
      (list_schemas st catalog exec).2 ("X-Trino-Catalog".toList) = none) ∧
    (st ("X-Trino-Catalog".toList) ≠ some [] →
      (list_tables st catalog schema exec2).2 ("X-Trino-Catalog".toList) =
        st ("X-Trino-Catalog".toList)) ∧
    (st ("X-Trino-Schema".toList) ≠ some [] →
      (list_tables st catalog schema exec2).2 ("X-Trino-Schema".toList) =
        st ("X-Trino-Schema".toList)) := by
  refine ⟨?_, ?_, ?_, ?_, ?_⟩
  · intro hne
    show restoreHeader (hset st ("X-Trino-Catalog".toList) catalog)
        ("X-Trino-Catalog".toList) (st ("X-Trino-Catalog".toList))
        ("X-Trino-Catalog".toList) = st ("X-Trino-Catalog".toList)
    rw [restoreHeader_self]
    cases hK : st ("X-Trino-Catalog".toList) with
    | none => rfl
    | some s =>
      have hs : ¬ s = [] := by
        intro he
        exact hne (by rw [hK, he])
      show (if s = [] then none else some s) = some s
      rw [if_neg hs]
  · show restoreHeader (hset st ("X-Trino-Catalog".toList) catalog)
        ("X-Trino-Catalog".toList) (st ("X-Trino-Catalog".toList))
        ("X-Trino-Schema".toList) = st ("X-Trino-Schema".toList)
    rw [restoreHeader_other (by decide)]
    exact hset_other (by decide)
  · intro he
    show restoreHeader (hset st ("X-Trino-Catalog".toList) catalog)
        ("X-Trino-Catalog".toList) (st ("X-Trino-Catalog".toList))
        ("X-Trino-Catalog".toList) = none
    rw [restoreHeader_self, he]
    show (if ([] : List Char) = [] then (none : Option (List Char)) else some []) = none
    rw [if_pos rfl]
  · intro hne
    show restoreHeader
        (restoreHeader
          (hset (hset st ("X-Trino-Catalog".toList) catalog) ("X-Trino-Schema".toList) schema)
          ("X-Trino-Catalog".toList) (st ("X-Trino-Catalog".toList)))
        ("X-Trino-Schema".toList) (st ("X-Trino-Schema".toList))
        ("X-Trino-Catalog".toList) = st ("X-Trino-Catalog".toList)
    rw [restoreHeader_other (by decide), restoreHeader_self]
    cases hK : st ("X-Trino-Catalog".toList) with
    | none => rfl
    | some s =>
      have hs : ¬ s = [] := by
        intro he
        exact hne (by rw [hK, he])
      show (if s = [] then none else some s) = some s
      rw [if_neg hs]
  · intro hne
    show restoreHeader
        (restoreHeader
          (hset (hset st ("X-Trino-Catalog".toList) catalog) ("X-Trino-Schema".toList) schema)
          ("X-Trino-Catalog".toList) (st ("X-Trino-Catalog".toList)))
        ("X-Trino-Schema".toList) (st ("X-Trino-Schema".toList))
        ("X-Trino-Schema".toList) = st ("X-Trino-Schema".toList)
    rw [restoreHeader_self]
    cases hK : st ("X-Trino-Schema".toList) with
    | none => rfl
    | some s =>
      have hs : ¬ s = [] := by
        intro he
        exact hne (by rw [hK, he])
      show (if s = [] then none else some s) = some s
      rw [if_neg hs]

/-- C8 witness: with a prior non-empty catalog header and an absent schema
header, both headers are back to their prior values after the calls. -/
theorem list_scope_headers_restored_witness :
    (list_schemas (fun q => if q = "X-Trino-Catalog".toList then some ("hive".toList) else none)
        ("c".toList) (fun _ => Except.ok (⟨[], []⟩ : QueryResult (List Nat)))).2
      ("X-Trino-Catalog".toList) = some ("hive".toList) ∧
    (list_tables (fun q => if q = "X-Trino-Catalog".toList then some ("hive".toList) else none)
        ("c".toList) ("s".toList)
        (fun _ => Except.ok (⟨[], []⟩ : QueryResult (List Nat)))).2
      ("X-Trino-Schema".toList) = none := by
  constructor
  · have h := (list_scope_headers_restored
      (fun q => if q = "X-Trino-Catalog".toList then some ("hive".toList) else none)
      ("c".toList) ("s".toList)
      (fun _ => Except.ok (⟨[], []⟩ : QueryResult (List Nat)))
      (fun _ => Except.ok (⟨[], []⟩ : QueryResult (List Nat)))).1 (by decide)
    rw [h]
    decide
  · have h := (list_scope_headers_restored
      (fun q => if q = "X-Trino-Catalog".toList then some ("hive".toList) else none)
      ("c".toList) ("s".toList)
      (fun _ => Except.ok (⟨[], []⟩ : QueryResult (List Nat)))
      (fun _ => Except.ok (⟨[], []⟩ : QueryResult (List Nat)))).2.2.2.2 (by decide)
    rw [h]
    decide

/-- C8 counterexample: a previously-present `X-Trino-Catalog` header whose
value is the empty string is popped by the `finally` block rather than
restored, so the header state is not the one from before the call. -/
theorem list_schemas_empty_header_not_restored :
    (list_schemas (fun q => if q = "X-Trino-Catalog".toList then some [] else none)
        ("c".toList) (fun _ => Except.ok (⟨[], []⟩ : QueryResult (List Nat)))).2
      ("X-Trino-Catalog".toList) = none ∧
    (fun q => if q = "X-Trino-Catalog".toList then some ([] : List Char) else none)
      ("X-Trino-Catalog".toList) = some [] ∧
    ¬ ((list_schemas (fun q => if q = "X-Trino-Catalog".toList then some [] else none)
        ("c".toList) (fun _ => Except.ok (⟨[], []⟩ : QueryResult (List Nat)))).2
      ("X-Trino-Catalog".toList) =
      (fun q => if q = "X-Trino-Catalog".toList then some ([] : List Char) else none)
        ("X-Trino-Catalog".toList)) := by
  refine ⟨by decide, by decide, by decide⟩

end TrinoMCP
